import Mathlib

/-!
Verification of the permission/validation core of `mysql-mcp-server-secure`
(`src/index.ts`): statement-type validation, glob-based table/database
matching, table-reference extraction, the `mysql_query` gateway decision,
multi-source configuration merging, and default-source resolution at startup.

SQL text is modelled as Lean `String` (ASCII semantics for case mapping and
whitespace, which covers every character class the source manipulates).
JavaScript `undefined` is modelled as `Option.none`, and JavaScript string
falsiness (`""` and `undefined` are falsy) is modelled explicitly.
-/

namespace MysqlMcp

/-- Whitespace characters trimmed by `String.prototype.trim` and matched by
the regex class `\s`, restricted to the ASCII range. -/
def isSpace (c : Char) : Bool :=
  c == ' ' || c == '\t' || c == '\n' || c == '\r' || c == '\x0b' || c == '\x0c'

/-- Model of `String.prototype.trim` on a character list. -/
def trimChars (cs : List Char) : List Char :=
  ((cs.dropWhile isSpace).reverse.dropWhile isSpace).reverse

/-- Model of `String.prototype.trim`. -/
def trimString (s : String) : String := ⟨trimChars s.data⟩

/-- Model of `String.prototype.toUpperCase` (ASCII case mapping). -/
def toUpperString (s : String) : String := ⟨s.data.map Char.toUpper⟩

/-- Model of `String.prototype.toLowerCase` (ASCII case mapping). -/
def toLowerString (s : String) : String := ⟨s.data.map Char.toLower⟩

/-- Model of `String.prototype.split(sep)` for a one-character separator:
always returns at least one segment and keeps empty segments, exactly as in
JavaScript. -/
def splitOnChar (sep : Char) : List Char → List (List Char)
  | [] => [[]]
  | c :: cs =>
    if c == sep then [] :: splitOnChar sep cs
    else
      match splitOnChar sep cs with
      | [] => [[c]]
      | seg :: rest => (c :: seg) :: rest

/-- Model of the JavaScript expression `a || b` for two possibly-undefined
strings: an undefined or empty (falsy) left operand yields the right one. -/
def jsOrOpt (a b : Option String) : Option String :=
  match a with
  | some s => if s.isEmpty then b else some s
  | none => b

/-- Model of the JavaScript expression `a || d` where `d` is a plain string. -/
def jsOrStr (a : Option String) (d : String) : String :=
  match a with
  | some s => if s.isEmpty then d else s
  | none => d

/-- Permission configuration (`interface PermissionConfig` in the source). -/
structure PermissionConfig where
  allowedSqlTypes : List String
  tablePatterns : List String
  allowedDatabases : List String
  allowMultiStatement : Bool
  readOnly : Bool
deriving DecidableEq, Repr

/-- Connection configuration (the `connection` field of `SourceConfig`).
JavaScript numbers are modelled as integers; no claim depends on
non-integral values. -/
structure ConnectionConfig where
  host : String
  user : String
  password : String
  port : Int
  database : Option String
  waitForConnections : Bool
  connectionLimit : Int
  queueLimit : Int
deriving DecidableEq, Repr

/-- A resolved source (`interface SourceConfig` in the source). -/
structure SourceConfig where
  connection : ConnectionConfig
  permissions : PermissionConfig
deriving DecidableEq, Repr

/-! ### Glob matching (`matchesPattern` and the `minimatch` collaborator) -/

/-- Fuel-driven glob matcher over character lists: `*` matches any run of
characters and `?` matches any single character.  This models the core of the
external `minimatch` collaborator as used by the source (plain name globs;
the spec describes the semantics as shell-style wildcards).  The fuel always
suffices when it is at least `pattern.length + text.length + 1`. -/
def globMatchAux : Nat → List Char → List Char → Bool
  | 0, _, _ => false
  | _ + 1, [], [] => true
  | n + 1, p :: ps, [] => if p == '*' then globMatchAux n ps [] else false
  | _ + 1, [], _ :: _ => false
  | n + 1, p :: ps, c :: cs =>
    if p == '*' then globMatchAux n ps (c :: cs) || globMatchAux n (p :: ps) cs
    else if p == '?' then globMatchAux n ps cs
    else p == c && globMatchAux n ps cs

/-- Model of `minimatch(text, pattern, { nocase: true })`: case-insensitive
glob matching (both sides lowercased, ASCII). -/
def minimatchNocase (text pattern : String) : Bool :=
  globMatchAux (pattern.length + text.length + 1)
    (pattern.data.map Char.toLower) (text.data.map Char.toLower)

/-- Function `matchesPattern` from the source: true when any pattern matches; the
literal pattern `"*"` short-circuits to true. -/
def matchesPattern (text : String) (patterns : List String) : Bool :=
  patterns.any fun pattern =>
    if pattern == "*" then true else minimatchNocase text pattern

/-! ### Statement-type validation (`validateSqlType`) -/

/-- The recognized statement keywords, in the order they appear in the
source regex `^(SELECT|INSERT|...|USE)`. -/
def sqlKeywords : List String :=
  ["SELECT", "INSERT", "UPDATE", "DELETE", "CREATE", "DROP", "ALTER",
   "TRUNCATE", "REPLACE", "CALL", "EXPLAIN", "SHOW", "DESCRIBE", "USE"]

/-- Statement-type detection: the source regex anchors each keyword at the
start of the (trimmed, uppercased) text with no trailing word-boundary
requirement, so it is a plain prefix test; no match yields `UNKNOWN`.
(No keyword of the alternation is a prefix of another, so alternation order
cannot change the result.) -/
def detectSqlType (trimmedSql : String) : String :=
  match sqlKeywords.find? (fun k => k.data.isPrefixOf trimmedSql.data) with
  | some k => k
  | none => "UNKNOWN"

/-- The trimmed-and-uppercased form of the query text used for analysis
(`sql.trim().toUpperCase()` in the source). -/
def normalizeSql (sql : String) : String := toUpperString (trimString sql)

/-- Number of segments of a `;`-split that survive the source filter
`filter(s => s.trim())` (JavaScript truthiness: non-empty after trimming). -/
def nonBlankSegments (cs : List Char) : Nat :=
  ((splitOnChar ';' cs).filter (fun s => !(trimChars s).isEmpty)).length

/-- The multi-statement condition of `validateSqlType`:
`!allowMultiStatement && trimmedSql.includes(';') &&
 trimmedSql.split(';').filter(s => s.trim()).length > 1`. -/
def multiStatementViolation (pc : PermissionConfig) (trimmedSql : String) : Bool :=
  !pc.allowMultiStatement &&
    (trimmedSql.data.contains ';' && decide (1 < nonBlankSegments trimmedSql.data))

/-- The allow-list condition of `validateSqlType`:
`!allowedSqlTypes.includes(sqlType) && !allowedSqlTypes.includes('*')`. -/
def allowListViolation (pc : PermissionConfig) (sqlType : String) : Bool :=
  !pc.allowedSqlTypes.contains sqlType && !pc.allowedSqlTypes.contains "*"

/-- The allow-list denial message built by `validateSqlType`. -/
def allowListError (pc : PermissionConfig) (sqlType : String) : String :=
  "SQL type \x27" ++ (sqlType ++ ("\x27 is not allowed. Allowed types: " ++
    String.intercalate ", " pc.allowedSqlTypes))

/-- The fixed safe set of the read-only gate. -/
def safeSqlTypes : List String := ["SELECT", "EXPLAIN", "SHOW", "DESCRIBE"]

/-- Result record of `validateSqlType`. -/
structure SqlTypeValidation where
  valid : Bool
  sqlType : Option String
  error : Option String
deriving DecidableEq, Repr

/-- Function `validateSqlType` from the source: multi-statement check, then type
detection, then allow-list check, then the read-only gate, in that order. -/
def validateSqlType (sql : String) (permissionConfig : PermissionConfig) :
    SqlTypeValidation :=
  let trimmedSql := normalizeSql sql
  if multiStatementViolation permissionConfig trimmedSql then
    { valid := false, sqlType := none,
      error := some "Multi-statement queries are not allowed" }
  else
    let sqlType := detectSqlType trimmedSql
    if allowListViolation permissionConfig sqlType then
      { valid := false, sqlType := none,
        error := some (allowListError permissionConfig sqlType) }
    else if permissionConfig.readOnly && !safeSqlTypes.contains sqlType then
      { valid := false, sqlType := none,
        error := some "Server is in read-only mode. Only SELECT queries are allowed" }
    else
      { valid := true, sqlType := some sqlType, error := none }

/-! ### Table/database access validation (`validateTableAccess`) -/

/-- Result record of `validateTableAccess`. -/
structure AccessValidation where
  valid : Bool
  error : Option String
deriving DecidableEq, Repr

/-- Function `validateTableAccess` from the source.  The database check runs only for
a truthy (present and non-empty) database value, mirroring
`if (database && !matchesPattern(...))`. -/
def validateTableAccess (tableName : String) (permissionConfig : PermissionConfig)
    (database : Option String) : AccessValidation :=
  let dbFail :=
    match database with
    | some db => !db.isEmpty && !matchesPattern db permissionConfig.allowedDatabases
    | none => false
  if dbFail then
    { valid := false,
      error := some ("Access to database \x27" ++ (database.getD "" ++
        "\x27 is not allowed")) }
  else if !matchesPattern tableName permissionConfig.tablePatterns then
    { valid := false,
      error := some ("Access to table \x27" ++ (tableName ++
        "\x27 is not allowed")) }
  else
    { valid := true, error := none }

/-! ### Table-reference extraction (`extractTableRefs`)

The source scans the raw query text with eight global case-insensitive
regexes of the shape `KEYWORD\s+([`\w]+(?:\s*\.\s*[`\w]+)?)` (the two-word
clauses use `WORD\s+WORD\s+`).  The scanner below models exact JavaScript
`RegExp.exec` semantics for these fixed patterns: leftmost match, then
resume scanning after the end of the previous match; no word boundary is
required before the keyword. -/

/-- The backquote character (`` ` `` in the regex character class). -/
def backquote : Char := Char.ofNat 96

/-- The apostrophe character (stripped together with backquotes by
`replace(/[`']/g, '')`). -/
def apostrophe : Char := Char.ofNat 39

/-- Characters matched by `\w`: ASCII letters, digits and underscore. -/
def isWordChar (c : Char) : Bool := c.isAlpha || c.isDigit || c == '_'

/-- Characters matched by the class `` [`\w] ``. -/
def isNameChar (c : Char) : Bool := isWordChar c || c == backquote

/-- Match one keyword word (given uppercased) at the start of the text,
case-insensitively; returns the rest of the text. -/
def matchWordCI : List Char → List Char → Option (List Char)
  | [], cs => some cs
  | _ :: _, [] => none
  | w :: ws, c :: cs => if c.toUpper == w then matchWordCI ws cs else none

/-- Match `\s+` at the start of the text (at least one whitespace
character, then greedily all of them); returns the rest. -/
def matchSpaces1 : List Char → Option (List Char)
  | [] => none
  | c :: cs => if isSpace c then some (cs.dropWhile isSpace) else none

/-- Match a sequence of keyword words separated by `\s+`. -/
def matchWordsCI : List (List Char) → List Char → Option (List Char)
  | [], cs => some cs
  | w :: ws, cs =>
    match matchWordCI w cs with
    | none => none
    | some rest =>
      match ws with
      | [] => some rest
      | _ :: _ =>
        match matchSpaces1 rest with
        | none => none
        | some rest2 => matchWordsCI ws rest2

/-- Match the capture `` [`\w]+(?:\s*\.\s*[`\w]+)? `` at the start of the
text.  Returns the captured identifier with internal whitespace already
removed (the source applies `replace(/\s+/g, '')` to the capture) and the
rest of the text after the full match. -/
def matchCapture (cs : List Char) : Option (List Char × List Char) :=
  let a := cs.takeWhile isNameChar
  let r1 := cs.dropWhile isNameChar
  if a.isEmpty then none
  else
    match r1.dropWhile isSpace with
    | '.' :: r3 =>
      let r4 := r3.dropWhile isSpace
      let b := r4.takeWhile isNameChar
      let r5 := r4.dropWhile isNameChar
      if b.isEmpty then some (a, r1) else some (a ++ '.' :: b, r5)
    | _ => some (a, r1)

/-- Try to match one whole extraction pattern (keyword words, `\s+`, then
the identifier capture) at the start of the text. -/
def matchKeywordAt (words : List (List Char)) (cs : List Char) :
    Option (List Char × List Char) :=
  match matchWordsCI words cs with
  | none => none
  | some rest =>
    match matchSpaces1 rest with
    | none => none
    | some rest2 => matchCapture rest2

/-- All captures of one pattern over the text, leftmost first, resuming
after each full match (fuel-driven; the initial fuel `cs.length` always
suffices because every successful match consumes at least one character). -/
def scanPatternAux (words : List (List Char)) : Nat → List Char → List (List Char)
  | 0, _ => []
  | _ + 1, [] => []
  | n + 1, c :: cs =>
    match matchKeywordAt words (c :: cs) with
    | some (cap, rest) => cap :: scanPatternAux words n rest
    | none => scanPatternAux words n cs

/-- All captures of one pattern over the text. -/
def scanPattern (words : List (List Char)) (cs : List Char) : List (List Char) :=
  scanPatternAux words cs.length cs

/-- The eight clause keywords scanned by `extractTableRefs`, in source
order. -/
def extractPatterns : List (List (List Char)) :=
  [["FROM".data], ["JOIN".data], ["UPDATE".data], ["INSERT".data, "INTO".data],
   ["CREATE".data, "TABLE".data], ["DROP".data, "TABLE".data],
   ["ALTER".data, "TABLE".data], ["TRUNCATE".data, "TABLE".data]]

/-- A table reference (`interface TableRef` in the source). -/
structure TableRef where
  database : Option String
  table : String
deriving DecidableEq, Repr

/-- Turn one raw capture into a reference: split on `.`, strip backquotes
and apostrophes from each part; one part is a table, two parts are
database and table, anything else (or an empty table name) is discarded. -/
def refOfRaw (raw : List Char) : Option TableRef :=
  let parts := (splitOnChar '.' raw).map fun p =>
    p.filter fun c => !(c == backquote || c == apostrophe)
  match parts with
  | [t] => if t.isEmpty then none else some { database := none, table := ⟨t⟩ }
  | [d, t] => if t.isEmpty then none else some { database := some ⟨d⟩, table := ⟨t⟩ }
  | _ => none

/-- Function `extractTableRefs` from the source: run all eight patterns over the raw
query text, parse each capture, and keep the first occurrence of every
(database, table) pair. -/
def extractTableRefs (sql : String) : List TableRef :=
  let caps := (extractPatterns.map (fun words => scanPattern words sql.data)).flatten
  caps.foldl
    (fun refs raw =>
      match refOfRaw raw with
      | none => refs
      | some ref =>
        if refs.any (fun r => r.table == ref.table && r.database == ref.database)
        then refs else refs ++ [ref])
    []

/-! ### The `mysql_query` gateway decision -/

/-- Outcome of the `mysql_query` tool handler's decision path: either a
denial response or forwarding of the (unchanged) SQL text to the external
database executor. -/
inductive QueryOutcome where
  | denied (message : String) : QueryOutcome
  | executed (sql : String) : QueryOutcome
deriving DecidableEq, Repr

/-- The effective database checked for one reference:
`ref.database || database || config.connection.database` (JavaScript `||`,
so empty strings fall through). -/
def effectiveDatabase (ref : TableRef) (database connDb : Option String) :
    Option String :=
  jsOrOpt ref.database (jsOrOpt database connDb)

/-- The first extracted reference (in extraction order) that fails its
table/database check; the handler loop denies on exactly this one. -/
def firstFailingRef (refs : List TableRef) (pc : PermissionConfig)
    (database connDb : Option String) : Option TableRef :=
  refs.find? fun ref =>
    !(validateTableAccess ref.table pc (effectiveDatabase ref database connDb)).valid

/-- Decision path of the `mysql_query` handler: statement-type validation,
then per-reference access validation (denying on the first failure), then
delegation to the executor.  Only the permission decision is modelled; the
executor itself is the external collaborator. -/
def mysqlQuery (sql : String) (database : Option String) (config : SourceConfig) :
    QueryOutcome :=
  let pc := config.permissions
  let sqlValidation := validateSqlType sql pc
  if !sqlValidation.valid then
    .denied ("Permission denied: " ++ sqlValidation.error.getD "undefined")
  else
    match firstFailingRef (extractTableRefs sql) pc database config.connection.database with
    | some ref =>
      .denied ("Permission denied: " ++
        ((validateTableAccess ref.table pc
          (effectiveDatabase ref database config.connection.database)).error.getD "undefined"))
    | none => .executed sql

/-! ### Configuration model and source-registry construction

Raw configuration values (`unknown` in the source) are modelled as a JSON
value type; JavaScript objects are association lists in insertion order,
which is exactly the key order JavaScript preserves for string keys. -/

/-- A parsed JSON value (`unknown` after `JSON.parse`). -/
inductive JsonValue where
  | str (s : String) : JsonValue
  | num (n : Int) : JsonValue
  | bool (b : Bool) : JsonValue
  | null : JsonValue
  | arr (items : List JsonValue) : JsonValue
  | obj (fields : List (String × JsonValue)) : JsonValue

/-- Property lookup on an association list (JavaScript `o[key]`, with
`none` for an absent key). -/
def objGet : List (String × α) → String → Option α
  | [], _ => none
  | (k, v) :: rest, key => if k = key then some v else objGet rest key

/-- Function `getString` from the source. -/
def getString : Option JsonValue → Option String
  | some (.str s) => some s
  | _ => none

/-- Function `getNumber` from the source.  JavaScript numbers are modelled as
integers; a numeric string (accepted by the source via `Number(value)`) is
modelled for integer literals. -/
def getNumber : Option JsonValue → Option Int
  | some (.num n) => some n
  | some (.str s) =>
    if (trimString s).isEmpty then none else (trimString s).toInt?
  | _ => none

/-- Function `getBoolean` from the source. -/
def getBoolean : Option JsonValue → Option Bool
  | some (.bool b) => some b
  | _ => none

/-- Function `getStringArray` from the source: an array value all of whose items are
strings, anything else is rejected. -/
def getStringArray : Option JsonValue → Option (List String)
  | some (.arr items) =>
    items.foldr
      (fun item acc =>
        match item, acc with
        | .str s, some out => some (s :: out)
        | _, _ => none)
      (some [])
  | _ => none

/-- The object spread `{ ...fileParsed, ...envParsed }` used to merge the
raw source maps: every key of the first object in its order (taking the
second object's value when it also defines the key), then the keys only in
the second object, in their order. -/
def spreadMerge (a b : List (String × JsonValue)) : List (String × JsonValue) :=
  (a.map fun p => (p.1, (objGet b p.1).getD p.2)) ++
    b.filter fun p => (objGet a p.1).isNone

/-- The merged raw source map of `loadSourceConfigs`
(`{ ...fileParsed, ...envParsed }`): the inline override replaces a file
source's raw definition per source name. -/
def mergeRawSources (fileParsed envParsed : List (String × JsonValue)) :
    List (String × JsonValue) :=
  spreadMerge fileParsed envParsed

/-- Function `normalizePermissionConfig` from the source: a non-object override
yields the base policy unchanged; otherwise each field falls back to the
base where the override omits (or mis-types) it.  `allowedSqlTypes` entries
are trimmed and uppercased, pattern entries are trimmed. -/
def normalizePermissionConfig (base : PermissionConfig) (override : Option JsonValue) :
    PermissionConfig :=
  match override with
  | some (.obj fields) =>
    { allowedSqlTypes :=
        ((getStringArray (objGet fields "allowedSqlTypes")).map
          (List.map fun s => toUpperString (trimString s))).getD base.allowedSqlTypes
      tablePatterns :=
        ((getStringArray (objGet fields "tablePatterns")).map
          (List.map trimString)).getD base.tablePatterns
      allowedDatabases :=
        ((getStringArray (objGet fields "allowedDatabases")).map
          (List.map trimString)).getD base.allowedDatabases
      allowMultiStatement :=
        (getBoolean (objGet fields "allowMultiStatement")).getD base.allowMultiStatement
      readOnly := (getBoolean (objGet fields "readOnly")).getD base.readOnly }
  | _ => base

/-- Resolution of one raw source definition in the `loadSourceConfigs`
loop: a non-object raw value is a fatal configuration error; otherwise the
connection fields come from the `connection` sub-object when present (from
the source object itself otherwise), each falling back individually to the
base connection, and the permissions are normalized against the base
policy. -/
def resolveSource (baseConnection : ConnectionConfig) (basePermissions : PermissionConfig)
    (sourceName : String) (sourceValue : JsonValue) : Except String SourceConfig :=
  match sourceValue with
  | .obj fields =>
    let rawConnection :=
      match objGet fields "connection" with
      | some (.obj c) => c
      | _ => fields
    .ok
      { connection :=
          { host := (getString (objGet rawConnection "host")).getD baseConnection.host
            user := (getString (objGet rawConnection "user")).getD baseConnection.user
            password :=
              (getString (objGet rawConnection "password")).getD baseConnection.password
            port := (getNumber (objGet rawConnection "port")).getD baseConnection.port
            database :=
              match getString (objGet rawConnection "database") with
              | some d => some d
              | none => baseConnection.database
            waitForConnections :=
              (getBoolean (objGet rawConnection "waitForConnections")).getD
                baseConnection.waitForConnections
            connectionLimit :=
              (getNumber (objGet rawConnection "connectionLimit")).getD
                baseConnection.connectionLimit
            queueLimit :=
              (getNumber (objGet rawConnection "queueLimit")).getD
                baseConnection.queueLimit }
        permissions := normalizePermissionConfig basePermissions (objGet fields "permissions") }
  | _ => .error ("Invalid source \x27" ++ (sourceName ++ "\x27: expected object"))

/-- The `for (const [sourceName, sourceValue] of Object.entries(...))` loop
of `loadSourceConfigs`: resolves each raw source in order, propagating the
first error. -/
def resolveEntries (baseConnection : ConnectionConfig) (basePermissions : PermissionConfig) :
    List (String × JsonValue) → Except String (List (String × SourceConfig))
  | [] => .ok []
  | (n, v) :: rest =>
    match resolveSource baseConnection basePermissions n v with
    | .error e => .error e
    | .ok cfg =>
      match resolveEntries baseConnection basePermissions rest with
      | .error e => .error e
      | .ok sources => .ok ((n, cfg) :: sources)

/-- Function `loadSourceConfigs` from the source, taking the already-parsed base
policy/connection and the optional raw source maps of the file
configuration and of the `MYSQL_SOURCES` inline override.  An empty merged
map synthesizes the single source `"default"` from the base values. -/
def loadSourceConfigs (basePermissions : PermissionConfig)
    (baseConnection : ConnectionConfig)
    (fileParsed envParsed : Option (List (String × JsonValue))) :
    Except String (List (String × SourceConfig)) :=
  let mergedRawSources := mergeRawSources (fileParsed.getD []) (envParsed.getD [])
  if mergedRawSources.isEmpty then
    .ok [("default", { connection := baseConnection, permissions := basePermissions })]
  else
    match resolveEntries baseConnection basePermissions mergedRawSources with
    | .error e => .error e
    | .ok sources =>
      if sources.isEmpty then .error "Invalid MYSQL_SOURCES: no sources provided"
      else .ok sources

/-- The base connection produced by `loadDefaultConnectionConfig` when none
of the `DB_*` environment variables are set. -/
def defaultConnectionConfig : ConnectionConfig :=
  { host := "127.0.0.1", user := "root", password := "", port := 3306,
    database := none, waitForConnections := true, connectionLimit := 10,
    queueLimit := 0 }

/-- The base policy produced by `loadPermissionConfig` when none of the
policy environment variables are set. -/
def defaultPermissionConfig : PermissionConfig :=
  { allowedSqlTypes := ["SELECT"], tablePatterns := ["*"],
    allowedDatabases := ["*"], allowMultiStatement := false, readOnly := true }

/-! ### Source lookup and startup -/

/-- Resolution of `DEFAULT_SOURCE`:
`process.env.DEFAULT_SOURCE || FILE_CONFIG?.defaultSource ||
 Object.keys(SOURCE_CONFIGS)[0]`. -/
def resolveDefaultSourceName (envDefault fileDefault : Option String)
    (sourceConfigs : List (String × SourceConfig)) : Option String :=
  jsOrOpt envDefault (jsOrOpt fileDefault (sourceConfigs.map Prod.fst).head?)

/-- Function `getSourceConfig` from the source: a missing, empty or whitespace-only
`source` argument falls back to the default source name; an unconfigured
resolved name raises the unknown-source error listing the configured
names. -/
def getSourceConfig (sourceConfigs : List (String × SourceConfig))
    (defaultSource : String) (source : Option String) :
    Except String (String × SourceConfig) :=
  let sourceName :=
    match source with
    | some s => if (trimString s).isEmpty then defaultSource else s
    | none => defaultSource
  match objGet sourceConfigs sourceName with
  | some config => .ok (sourceName, config)
  | none =>
    .error ("Unknown source \x27" ++ (sourceName ++
      ("\x27. Available sources: " ++
        String.intercalate ", " (sourceConfigs.map Prod.fst))))

/-- Outcome of the startup sequence in `main`: either the process exits
before serving (logging the given failure) or the MCP server starts
serving. -/
inductive StartupResult where
  | exited (message : String) : StartupResult
  | serving : StartupResult
deriving DecidableEq, Repr

/-- One iteration of the startup connection test: `getPool(sourceName)`
resolves the source (which may raise the unknown-source error) and then
attempts a connection, modelled by the `connectOk` oracle. -/
def testSourceConnection (sourceConfigs : List (String × SourceConfig))
    (defaultSource : String) (connectOk : String → Bool) (name : String) :
    Option String :=
  match getSourceConfig sourceConfigs defaultSource (some name) with
  | .error e => some e
  | .ok (sourceName, _) =>
    if connectOk sourceName then none
    else some ("connection failed for \x27" ++ (sourceName ++ "\x27"))

/-- The startup decision of `main`: with `SKIP_DB_TEST` the test is skipped
entirely; otherwise the default source (or, with `TEST_ALL_SOURCES`, every
configured source) is tested and the first failure exits the process before
serving. -/
def mainStartup (skipDbTest testAllSources : Bool)
    (sourceConfigs : List (String × SourceConfig)) (defaultSource : String)
    (connectOk : String → Bool) : StartupResult :=
  if skipDbTest then .serving
  else
    let sourcesToTest :=
      if testAllSources then sourceConfigs.map Prod.fst else [defaultSource]
    match sourcesToTest.findSome?
      (testSourceConnection sourceConfigs defaultSource connectOk) with
    | some e => .exited e
    | none => .serving

/-! ### Shared example configurations -/

/-- The example policy of the spec's scenario section:
`{allowedSqlTypes:["SELECT"], tablePatterns:["open_*"], allowedDatabases:["*"],
  readOnly:true, allowMultiStatement:false}`. -/
def examplePolicy : PermissionConfig :=
  { allowedSqlTypes := ["SELECT"], tablePatterns := ["open_*"],
    allowedDatabases := ["*"], allowMultiStatement := false, readOnly := true }

/-- A source carrying the example policy over the default connection. -/
def exampleConfig : SourceConfig :=
  { connection := defaultConnectionConfig, permissions := examplePolicy }

/-- The policy `{allowedSqlTypes:["*"], readOnly:true}` of the read-only
independence scenario (remaining fields at their defaults). -/
def wildcardReadOnlyPolicy : PermissionConfig :=
  { allowedSqlTypes := ["*"], tablePatterns := ["*"],
    allowedDatabases := ["*"], allowMultiStatement := false, readOnly := true }

/-- File-side raw sources for the C3 merge scenario: source `a` sets only
the connection host. -/
def fileSourcesC3 : List (String × JsonValue) :=
  [("a", .obj [("host", .str "filehost")])]

/-- Inline-side raw sources for the C3 merge scenario: source `a` sets only
the connection user. -/
def inlineSourcesC3 : List (String × JsonValue) :=
  [("a", .obj [("user", .str "inlineuser")])]

/-- The source `a` as resolved from the inline-only raw definition of the
C3 merge scenario. -/
def resolvedInlineC3 : SourceConfig :=
  { connection :=
      { host := "127.0.0.1", user := "inlineuser", password := "",
        port := 3306, database := none, waitForConnections := true,
        connectionLimit := 10, queueLimit := 0 }
    permissions := defaultPermissionConfig }

/-! ### Helper lemmas -/

/-- A `*` pattern consumes any text, given sufficient fuel. -/
lemma globMatchAux_star : ∀ (t : List Char) (n : Nat), t.length + 2 ≤ n →
    globMatchAux n ['*'] t = true := by
  intro t
  induction t with
  | nil =>
    intro n hn
    match n, hn with
    | m + 2, _ => simp [globMatchAux]
  | cons c cs ih =>
    intro n hn
    match n, hn with
    | m + 1, hn =>
      have hm : cs.length + 2 ≤ m := by
        simpa [Nat.succ_le_succ_iff] using hn
      have hrec := ih m hm
      simp [globMatchAux, hrec]

/-- The glob `"*"` matches every text (case-insensitively). -/
lemma minimatchNocase_star (text : String) : minimatchNocase text "*" = true := by
  unfold minimatchNocase
  apply globMatchAux_star
  rw [List.length_map]
  have h2 : ("*" : String).length = 1 := rfl
  have h3 : text.length = text.data.length := rfl
  rw [h2, h3]
  omega

/-- The allow-list denial message starts with `S`. -/
lemma allowListError_head (pc : PermissionConfig) (sqlType : String) :
    (allowListError pc sqlType).data.head? = some 'S' := by
  unfold allowListError
  rw [String.data_append]
  rfl

/-- The second character of the allow-list denial message. -/
lemma allowListError_second (pc : PermissionConfig) (sqlType : String) :
    ((allowListError pc sqlType).data.drop 1).head? = some 'Q' := by
  unfold allowListError
  rw [String.data_append]
  rfl

/-- The allow-list denial message is never the read-only message. -/
lemma allowListError_ne_readOnlyMsg (pc : PermissionConfig) (sqlType : String) :
    allowListError pc sqlType ≠
      "Server is in read-only mode. Only SELECT queries are allowed" := by
  intro h
  have h2 : ((allowListError pc sqlType).data.drop 1).head? =
      (("Server is in read-only mode. Only SELECT queries are allowed" :
        String).data.drop 1).head? := by rw [h]
  rw [allowListError_second] at h2
  exact absurd h2 (by decide)

/-- The allow-list denial message is never the multi-statement message. -/
lemma allowListError_ne_multiMsg (pc : PermissionConfig) (sqlType : String) :
    allowListError pc sqlType ≠ "Multi-statement queries are not allowed" := by
  intro h
  have h2 : (allowListError pc sqlType).data.head? =
      ("Multi-statement queries are not allowed" : String).data.head? := by rw [h]
  rw [allowListError_head] at h2
  exact absurd h2 (by decide)

/-- A `validateSqlType` result carries the multi-statement message exactly
when the multi-statement condition fired (the other branches produce
distinct messages or none). -/
lemma validateSqlType_error_multi_iff (sql : String) (pc : PermissionConfig) :
    (validateSqlType sql pc).error = some "Multi-statement queries are not allowed" ↔
      multiStatementViolation pc (normalizeSql sql) = true := by
  constructor
  · intro h
    by_contra hc
    rw [Bool.not_eq_true] at hc
    by_cases h2 : allowListViolation pc (detectSqlType (normalizeSql sql))
    · simp only [validateSqlType, hc, h2, Bool.false_eq_true, if_false, if_true] at h
      simp only [Option.some.injEq] at h
      exact allowListError_ne_multiMsg pc _ h
    · by_cases h3 :
        (pc.readOnly && !safeSqlTypes.contains (detectSqlType (normalizeSql sql))) = true
      · simp only [validateSqlType, hc, h2, h3, Bool.false_eq_true, if_false,
          if_true] at h
        simp only [Option.some.injEq] at h
        exact absurd h (by decide)
      · rw [Bool.not_eq_true] at h3
        simp only [validateSqlType, hc, h2, h3, Bool.false_eq_true, if_false] at h
        cases h
  · intro h
    simp [validateSqlType, h]

/-- Splitting a text that does not contain the separator yields exactly the
whole text as its single segment. -/
lemma splitOnChar_of_not_contains (sep : Char) :
    ∀ cs : List Char, cs.contains sep = false → splitOnChar sep cs = [cs] := by
  intro cs
  induction cs with
  | nil => intro _; rfl
  | cons c cs ih =>
    intro h
    have hc : (c == sep) = false := by
      by_contra hcon
      rw [Bool.not_eq_false, beq_iff_eq] at hcon
      subst hcon
      simp [List.contains] at h
    have htail : cs.contains sep = false := by
      simp only [List.contains_cons, Bool.or_eq_false_iff] at h
      exact h.2
    simp [splitOnChar, hc, ih htail]

/-- More than one surviving segment forces a separator occurrence. -/
lemma contains_of_one_lt_nonBlankSegments (cs : List Char)
    (h : 1 < nonBlankSegments cs) : cs.contains ';' = true := by
  by_contra hc
  rw [Bool.not_eq_true] at hc
  unfold nonBlankSegments at h
  rw [splitOnChar_of_not_contains ';' cs hc] at h
  have hle : (([cs].filter fun s => !(trimChars s).isEmpty)).length ≤ 1 := by
    by_cases hb : (!(trimChars cs).isEmpty) = true <;> simp [List.filter, hb]
  omega

/-- Successful `find?` splits the list around the first hit. -/
lemma find?_some_split {α : Type} (p : α → Bool) :
    ∀ (l : List α) (a : α), l.find? p = some a →
      p a = true ∧ ∃ l₁ l₂, l = l₁ ++ a :: l₂ ∧ ∀ x ∈ l₁, p x = false := by
  intro l
  induction l with
  | nil => intro a h; cases h
  | cons h t ih =>
    intro a hf
    by_cases hph : p h
    · rw [List.find?_cons_of_pos _ hph] at hf
      cases hf
      exact ⟨hph, [], t, rfl, by intro x hx; cases hx⟩
    · rw [Bool.not_eq_true] at hph
      rw [List.find?_cons_of_neg _ (by simp [hph])] at hf
      obtain ⟨hpa, l₁, l₂, heq, hall⟩ := ih a hf
      refine ⟨hpa, h :: l₁, l₂, by rw [heq, List.cons_append], ?_⟩
      intro x hx
      rcases List.mem_cons.mp hx with hx | hx
      · subst hx; exact hph
      · exact hall x hx

/-- A member satisfying the predicate forces `find?` to succeed. -/
lemma find?_isSome_of_mem {α : Type} (p : α → Bool) :
    ∀ (l : List α) (a : α), a ∈ l → p a = true → ∃ b, l.find? p = some b := by
  intro l
  induction l with
  | nil => intro a ha; cases ha
  | cons h t ih =>
    intro a ha hp
    by_cases hph : p h
    · exact ⟨h, List.find?_cons_of_pos _ hph⟩
    · rw [Bool.not_eq_true] at hph
      rcases List.mem_cons.mp ha with rfl | ha
      · rw [hp] at hph; cases hph
      · obtain ⟨b, hb⟩ := ih a ha hp
        exact ⟨b, by rw [List.find?_cons_of_neg _ (by simp [hph]), hb]⟩

/-- No recognized SQL keyword is a prefix of a different one. -/
lemma sqlKeywords_no_prefix :
    ∀ a ∈ sqlKeywords, ∀ b ∈ sqlKeywords, a ≠ b →
      a.data.isPrefixOf b.data = false := by decide

/-- Over a list with no keyword a prefix of another, prefix search on a
text that starts with a listed keyword finds exactly that keyword. -/
lemma find?_isPrefixOf_append (L : List String) (kw : String) (s : List Char)
    (hk : kw ∈ L)
    (hpw : ∀ a ∈ L, ∀ b ∈ L, a ≠ b → a.data.isPrefixOf b.data = false) :
    L.find? (fun k => k.data.isPrefixOf (kw.data ++ s)) = some kw := by
  induction L with
  | nil => cases hk
  | cons h t ih =>
    by_cases hh : h = kw
    · subst hh
      have hp : h.data.isPrefixOf (h.data ++ s) = true :=
        List.isPrefixOf_iff_prefix.mpr (List.prefix_append _ _)
      exact List.find?_cons_of_pos _ hp
    · have hmemk : kw ∈ t := by
        rcases List.mem_cons.mp hk with rfl | hkt
        · exact absurd rfl hh
        · exact hkt
      have hpred : h.data.isPrefixOf (kw.data ++ s) = false := by
        by_contra hcon
        rw [Bool.not_eq_false, List.isPrefixOf_iff_prefix] at hcon
        have hkpre : kw.data <+: kw.data ++ s := List.prefix_append _ _
        rcases List.prefix_or_prefix_of_prefix hcon hkpre with hp | hp
        · have hfalse := hpw h (List.mem_cons_self _ _) kw
            (List.mem_cons_of_mem _ hmemk) hh
          rw [List.isPrefixOf_iff_prefix.mpr hp] at hfalse
          cases hfalse
        · have hfalse := hpw kw (List.mem_cons_of_mem _ hmemk) h
            (List.mem_cons_self _ _) (Ne.symm hh)
          rw [List.isPrefixOf_iff_prefix.mpr hp] at hfalse
          cases hfalse
      rw [List.find?_cons_of_neg _ (by simp [hpred])]
      exact ih hmemk
        (fun a ha b hb => hpw a (List.mem_cons_of_mem _ ha) b (List.mem_cons_of_mem _ hb))

/-- Lookup over an appended association list prefers the left part. -/
lemma objGet_append {α : Type} (xs ys : List (String × α)) (k : String) :
    objGet (xs ++ ys) k =
      match objGet xs k with
      | some v => some v
      | none => objGet ys k := by
  induction xs with
  | nil => rfl
  | cons p t ih =>
    by_cases hk : p.1 = k
    · simp [objGet, hk]
    · simp [objGet, hk, ih]

/-- Lookup over a key-preserving value map. -/
lemma objGet_map_value (xs : List (String × JsonValue))
    (h : String → JsonValue → JsonValue) (k : String) :
    objGet (xs.map fun p => (p.1, h p.1 p.2)) k = (objGet xs k).map (h k) := by
  induction xs with
  | nil => rfl
  | cons p t ih =>
    by_cases hk : p.1 = k
    · subst hk; simp [objGet]
    · simp [objGet, hk, ih]

/-- Lookup over the keys-absent-from-`a` filter used by the spread. -/
lemma objGet_filter_isNone (a : List (String × JsonValue)) (k : String) :
    ∀ b : List (String × JsonValue),
      objGet (b.filter fun p => (objGet a p.1).isNone) k =
        if (objGet a k).isNone then objGet b k else none := by
  intro b
  induction b with
  | nil => by_cases hq : (objGet a k).isNone <;> simp [objGet, hq]
  | cons p t ih =>
    by_cases hk : p.1 = k
    · subst hk
      by_cases hq : (objGet a p.1).isNone = true
      · simp [List.filter, hq, objGet]
      · rw [Bool.not_eq_true] at hq
        simp [List.filter, hq, objGet, ih]
    · by_cases hq : (objGet a p.1).isNone = true
      · simp [List.filter, hq, objGet, hk, ih]
      · rw [Bool.not_eq_true] at hq
        simp [List.filter, hq, objGet, hk, ih]

/-- Lookup in the object spread: the second object wins per key, keys of
either side are kept. -/
lemma objGet_spreadMerge (a b : List (String × JsonValue)) (k : String) :
    objGet (spreadMerge a b) k =
      match objGet b k with
      | some v => some v
      | none => objGet a k := by
  unfold spreadMerge
  rw [objGet_append, objGet_map_value a (fun kk vv => (objGet b kk).getD vv) k,
    objGet_filter_isNone a k b]
  cases ha : objGet a k with
  | some v =>
    cases hb : objGet b k with
    | some w => simp [ha, hb]
    | none => simp [ha, hb]
  | none =>
    cases hb : objGet b k with
    | some w => simp [ha, hb]
    | none => simp [ha, hb]

/-- Lookup of a resolved source in the output of the resolution loop. -/
lemma resolveEntries_lookup (bc : ConnectionConfig) (bp : PermissionConfig) :
    ∀ (l : List (String × JsonValue)) (out : List (String × SourceConfig)),
      resolveEntries bc bp l = .ok out →
      ∀ (k : String) (v : JsonValue), objGet l k = some v →
        ∃ cfg, resolveSource bc bp k v = .ok cfg ∧ objGet out k = some cfg := by
  intro l
  induction l with
  | nil => intro out _ k v hv; cases hv
  | cons p t ih =>
    intro out hout k v hv
    obtain ⟨n, w⟩ := p
    unfold resolveEntries at hout
    cases hres : resolveSource bc bp n w with
    | error e => rw [hres] at hout; cases hout
    | ok cfg =>
      rw [hres] at hout
      cases hrest : resolveEntries bc bp t with
      | error e => rw [hrest] at hout; cases hout
      | ok sources =>
        rw [hrest] at hout
        cases hout
        by_cases hk : n = k
        · subst hk
          simp only [objGet, if_pos rfl] at hv
          cases hv
          exact ⟨cfg, hres, by simp [objGet]⟩
        · simp only [objGet, hk, if_false] at hv ⊢
          have := ih sources hrest k v (by simpa [objGet, hk] using hv)
          simpa [objGet, hk] using this

/-! ### Claim theorems -/

/-- C1: with `readOnly = true`, `validateSqlType` denies every query whose
detected statement type lies outside the fixed safe set
{SELECT, EXPLAIN, SHOW, DESCRIBE}, even when the allow-list contains that
type or the wildcard; in particular, under
`{allowedSqlTypes:["*"], readOnly:true}` the query `UPDATE t SET x=1` is
denied and `SELECT 1` is permitted. -/
theorem readOnly_gate_denies_unsafe_statements (sql : String)
    (pc : PermissionConfig) (hro : pc.readOnly = true)
    (hsafe : safeSqlTypes.contains (detectSqlType (normalizeSql sql)) = false) :
    (validateSqlType sql pc).valid = false
    ∧ (validateSqlType "UPDATE t SET x=1" wildcardReadOnlyPolicy).valid = false
    ∧ (validateSqlType "SELECT 1" wildcardReadOnlyPolicy).valid = true := by
  refine ⟨?_, by decide, by decide⟩
  by_cases h1 : multiStatementViolation pc (normalizeSql sql)
  · simp [validateSqlType, h1]
  · by_cases h2 : allowListViolation pc (detectSqlType (normalizeSql sql))
    · simp [validateSqlType, h1, h2]
    · have hsafe2 : detectSqlType (normalizeSql sql) ∉ safeSqlTypes := by
        simpa using hsafe
      simp [validateSqlType, h1, h2, hro, hsafe2]

/-- Witness for C1 at the wildcard read-only policy and `UPDATE t SET x=1`. -/
theorem readOnly_gate_denies_unsafe_statements_witness :
    wildcardReadOnlyPolicy.readOnly = true
    ∧ (validateSqlType "UPDATE t SET x=1" wildcardReadOnlyPolicy).valid = false :=
  ⟨rfl, (readOnly_gate_denies_unsafe_statements "UPDATE t SET x=1"
    wildcardReadOnlyPolicy rfl (by decide)).1⟩

/-- C5: the checks of `validateSqlType` run in the fixed order
multi-statement → type detection → allow-list → read-only, and the denial
reason is that of the first failing check: a multi-statement violation is
reported with the multi-statement reason regardless of the later gates, an
allow-list violation is reported with the allow-list reason even under a
read-only policy, and the read-only reason appears only when the earlier
checks pass. -/
theorem validateSqlType_first_failing_reason (sql : String) (pc : PermissionConfig) :
    (multiStatementViolation pc (normalizeSql sql) = true →
      (validateSqlType sql pc).error = some "Multi-statement queries are not allowed")
    ∧ (multiStatementViolation pc (normalizeSql sql) = false →
        allowListViolation pc (detectSqlType (normalizeSql sql)) = true →
        (validateSqlType sql pc).error =
          some (allowListError pc (detectSqlType (normalizeSql sql))))
    ∧ (multiStatementViolation pc (normalizeSql sql) = false →
        allowListViolation pc (detectSqlType (normalizeSql sql)) = false →
        pc.readOnly = true →
        safeSqlTypes.contains (detectSqlType (normalizeSql sql)) = false →
        (validateSqlType sql pc).error =
          some "Server is in read-only mode. Only SELECT queries are allowed")
    ∧ allowListError pc (detectSqlType (normalizeSql sql)) ≠
        "Server is in read-only mode. Only SELECT queries are allowed" := by
  refine ⟨?_, ?_, ?_, allowListError_ne_readOnlyMsg pc _⟩
  · intro h1; simp [validateSqlType, h1]
  · intro h1 h2; simp [validateSqlType, h1, h2]
  · intro h1 h2 hro hsafe
    have hsafe2 : detectSqlType (normalizeSql sql) ∉ safeSqlTypes := by
      simpa using hsafe
    simp [validateSqlType, h1, h2, hro, hsafe2]

/-- Witness for C5: a multi-statement text that also violates the read-only
gate is denied with the multi-statement reason, and a disallowed statement
type under a read-only policy is denied with the allow-list reason. -/
theorem validateSqlType_first_failing_reason_witness :
    (validateSqlType "SELECT 1; DROP TABLE open_orders" examplePolicy).error =
      some "Multi-statement queries are not allowed"
    ∧ (validateSqlType "UPDATE t SET x=1" examplePolicy).error =
        some (allowListError examplePolicy
          (detectSqlType (normalizeSql "UPDATE t SET x=1"))) :=
  ⟨(validateSqlType_first_failing_reason "SELECT 1; DROP TABLE open_orders"
      examplePolicy).1 (by decide),
   (validateSqlType_first_failing_reason "UPDATE t SET x=1" examplePolicy).2.1
      (by decide) (by decide)⟩

/-- C6: with `allowMultiStatement = false`, `validateSqlType` denies with
the multi-statement reason exactly when splitting the analysed (trimmed)
text on `;` and discarding blank segments leaves more than one segment; a
single statement with a trailing `;` is not denied by this check. -/
theorem multi_statement_denial_iff (sql : String) (pc : PermissionConfig)
    (hms : pc.allowMultiStatement = false) :
    ((validateSqlType sql pc).error = some "Multi-statement queries are not allowed" ↔
      1 < nonBlankSegments (normalizeSql sql).data)
    ∧ (validateSqlType "SELECT 1;" pc).error ≠
        some "Multi-statement queries are not allowed" := by
  constructor
  · rw [validateSqlType_error_multi_iff]
    unfold multiStatementViolation
    rw [hms]
    constructor
    · intro h
      have := (Bool.and_eq_true _ _).mp h
      have h2 := (Bool.and_eq_true _ _).mp this.2
      exact of_decide_eq_true h2.2
    · intro h
      have hc := contains_of_one_lt_nonBlankSegments _ h
      have hmem : ';' ∈ (normalizeSql sql).data := by simpa using hc
      simp [hmem, h]
  · intro h
    have := (validateSqlType_error_multi_iff "SELECT 1;" pc).mp h
    unfold multiStatementViolation at this
    rw [hms] at this
    have hseg : decide (1 < nonBlankSegments (normalizeSql "SELECT 1;").data) = false := by
      decide
    rw [hseg] at this
    simp at this

/-- Witness for C6 at the example policy: the two-statement text is denied
with the multi-statement reason, and the trailing-semicolon text is not. -/
theorem multi_statement_denial_iff_witness :
    (validateSqlType "SELECT 1; DROP TABLE open_orders" examplePolicy).error =
      some "Multi-statement queries are not allowed"
    ∧ (validateSqlType "SELECT 1;" examplePolicy).error ≠
        some "Multi-statement queries are not allowed" :=
  ⟨(multi_statement_denial_iff "SELECT 1; DROP TABLE open_orders" examplePolicy
      rfl).1.mpr (by decide),
   (multi_statement_denial_iff "SELECT 1; DROP TABLE open_orders" examplePolicy
      rfl).2⟩

/-- C7: `matchesPattern` is true exactly when some pattern of the list
matches the text as a case-insensitive glob (logical OR); any list
containing the literal `"*"` matches every text, and the empty list matches
nothing. -/
theorem matchesPattern_or_semantics (text : String) (patterns : List String) :
    (matchesPattern text patterns = true ↔
      ∃ p ∈ patterns, minimatchNocase text p = true)
    ∧ (patterns.contains "*" = true → matchesPattern text patterns = true)
    ∧ matchesPattern text [] = false := by
  have hiff : matchesPattern text patterns = true ↔
      ∃ p ∈ patterns, minimatchNocase text p = true := by
    unfold matchesPattern
    rw [List.any_eq_true]
    constructor
    · rintro ⟨p, hp, hmatch⟩
      refine ⟨p, hp, ?_⟩
      by_cases h : p == "*"
      · have hp2 : p = "*" := by simpa using h
        subst hp2
        exact minimatchNocase_star text
      · simpa [h] using hmatch
    · rintro ⟨p, hp, hmatch⟩
      refine ⟨p, hp, ?_⟩
      by_cases h : p == "*" <;> simp [h, hmatch]
  refine ⟨hiff, ?_, rfl⟩
  intro hc
  have hmem : "*" ∈ patterns := by simpa using hc
  exact hiff.mpr ⟨"*", hmem, minimatchNocase_star text⟩

/-- Witness for C7: a wildcard list accepts an arbitrary text. -/
theorem matchesPattern_or_semantics_witness :
    matchesPattern "any_table_at_all" ["closed_*", "*"] = true :=
  (matchesPattern_or_semantics "any_table_at_all" ["closed_*", "*"]).2.1 (by decide)

/-- C9: statement-type detection is a bare prefix test with no token
boundary: any analysed text that begins with a recognized keyword — even
one immediately followed by further word characters, as in `SELECTED X` or
`DESCRIBEFOO` — is classified as that keyword rather than `UNKNOWN`, and
is therefore routed through that keyword's allow-list and read-only
treatment. -/
theorem detectSqlType_prefix_no_boundary (sql kw s : String)
    (hk : kw ∈ sqlKeywords) (hs : normalizeSql sql = kw ++ s) :
    detectSqlType (normalizeSql sql) = kw ∧ kw ≠ "UNKNOWN" := by
  constructor
  · rw [hs]
    have hfind : sqlKeywords.find? (fun k => k.data.isPrefixOf (kw ++ s).data) =
        some kw := by
      simp only [String.data_append]
      exact find?_isPrefixOf_append sqlKeywords kw s.data hk sqlKeywords_no_prefix
    unfold detectSqlType
    rw [hfind]
  · intro h
    subst h
    exact absurd hk (by decide)

/-- Witness for C9 at `SELECTED X` (keyword `SELECT` followed by word
characters) showing the classification is `SELECT`, not `UNKNOWN`. -/
theorem detectSqlType_prefix_no_boundary_witness :
    detectSqlType (normalizeSql "selected x") = "SELECT" ∧ "SELECT" ≠ "UNKNOWN" :=
  detectSqlType_prefix_no_boundary "selected x" "SELECT" "ED X" (by decide)
    (by decide)

/-- C10: a `source` argument that is absent, empty, or whitespace-only is
treated as unspecified and resolves to the default source name, and for a
non-blank `source` the unknown-source error is raised exactly when that
name is not among the configured sources (a configured name resolves to
itself). -/
theorem getSourceConfig_blank_falls_back (sourceConfigs : List (String × SourceConfig))
    (defaultSource : String) :
    (∀ s : String, (trimString s).isEmpty = true →
      getSourceConfig sourceConfigs defaultSource (some s) =
        getSourceConfig sourceConfigs defaultSource none)
    ∧ (∀ s : String, (trimString s).isEmpty = false →
        getSourceConfig sourceConfigs defaultSource (some s) =
          match objGet sourceConfigs s with
          | some config => .ok (s, config)
          | none =>
            .error ("Unknown source \x27" ++ (s ++ ("\x27. Available sources: " ++
              String.intercalate ", " (sourceConfigs.map Prod.fst)))) )
    ∧ getSourceConfig sourceConfigs defaultSource none =
        (match objGet sourceConfigs defaultSource with
          | some config => .ok (defaultSource, config)
          | none =>
            .error ("Unknown source \x27" ++ (defaultSource ++
              ("\x27. Available sources: " ++
                String.intercalate ", " (sourceConfigs.map Prod.fst))))) := by
  refine ⟨?_, ?_, rfl⟩
  · intro s hs
    simp [getSourceConfig, hs]
  · intro s hs
    simp [getSourceConfig, hs]

/-- Witness for C10: a whitespace-only source argument is resolved exactly
like an absent one. -/
theorem getSourceConfig_blank_falls_back_witness :
    getSourceConfig [("a", exampleConfig)] "a" (some "   ") =
      getSourceConfig [("a", exampleConfig)] "a" none :=
  (getSourceConfig_blank_falls_back [("a", exampleConfig)] "a").1 "   " (by decide)

/-- C8: in the raw source-map merge performed during registry construction
(`loadSourceConfigs` spreads the file map and then the inline
`MYSQL_SOURCES` map), a name present in the inline override takes the
inline raw definition in full, and a name present on only one side is kept
as-is. -/
theorem mergeRawSources_inline_wins_per_source (fileParsed envParsed :
    List (String × JsonValue)) (name : String) :
    objGet (mergeRawSources fileParsed envParsed) name =
      match objGet envParsed name with
      | some v => some v
      | none => objGet fileParsed name :=
  objGet_spreadMerge fileParsed envParsed name



/-- C3 counterexample: for a source defined on both sides, a connection
field set by the file but omitted by the inline override resolves to the
base default (`127.0.0.1`), not to the file's value (`filehost`) — there is
no per-field fallback to the file definition. -/
theorem no_per_field_fallback_to_file :
    loadSourceConfigs defaultPermissionConfig defaultConnectionConfig
      (some fileSourcesC3) (some inlineSourcesC3) =
      .ok [("a",
        { connection :=
            { host := "127.0.0.1", user := "inlineuser", password := "",
              port := 3306, database := none, waitForConnections := true,
              connectionLimit := 10, queueLimit := 0 }
          permissions := defaultPermissionConfig })]
    ∧ objGet fileSourcesC3 "a" = some (.obj [("host", .str "filehost")])
    ∧ ("127.0.0.1" : String) ≠ "filehost" := by
  refine ⟨rfl, rfl, by decide⟩

/-- C3 (amended): for a source name defined in both the file configuration
and the inline `MYSQL_SOURCES` override, resolution uses only the inline
raw definition — each field takes the inline value when the inline
definition sets it and otherwise falls back directly to the base default;
the file definition's field values are not consulted.  (Formally: the
resolved entry for such a name is `resolveSource` of the inline raw value,
uniformly in the file map.) -/
theorem inline_definition_resolved_against_base_only (bp : PermissionConfig)
    (bc : ConnectionConfig) (fileParsed envParsed : List (String × JsonValue))
    (name : String) (v : JsonValue) (sources : List (String × SourceConfig))
    (he : objGet envParsed name = some v)
    (hok : loadSourceConfigs bp bc (some fileParsed) (some envParsed) = .ok sources) :
    ∃ cfg, resolveSource bc bp name v = .ok cfg ∧ objGet sources name = some cfg := by
  have hm : objGet (mergeRawSources fileParsed envParsed) name = some v := by
    unfold mergeRawSources
    rw [objGet_spreadMerge, he]
  have hne : (mergeRawSources fileParsed envParsed).isEmpty = false := by
    cases hml : mergeRawSources fileParsed envParsed with
    | nil => rw [hml] at hm; cases hm
    | cons a t => simp
  unfold loadSourceConfigs at hok
  simp only [Option.getD] at hok
  rw [hne] at hok
  simp only [Bool.false_eq_true, if_false] at hok
  cases hre : resolveEntries bc bp (mergeRawSources fileParsed envParsed) with
  | error e => rw [hre] at hok; cases hok
  | ok out =>
    rw [hre] at hok
    have hok2 : (if out.isEmpty then
        (Except.error "Invalid MYSQL_SOURCES: no sources provided" :
          Except String (List (String × SourceConfig)))
      else Except.ok out) = Except.ok sources := hok
    by_cases ho : out.isEmpty
    · rw [if_pos ho] at hok2; cases hok2
    · rw [if_neg ho] at hok2
      cases hok2
      exact resolveEntries_lookup bc bp _ _ hre name v hm


/-- Witness for C3's amended theorem at the concrete merge scenario. -/
theorem inline_definition_resolved_against_base_only_witness :
    ∃ cfg, resolveSource defaultConnectionConfig defaultPermissionConfig "a"
        (.obj [("user", .str "inlineuser")]) = .ok cfg
      ∧ objGet [("a", resolvedInlineC3)] "a" = some cfg :=
  inline_definition_resolved_against_base_only defaultPermissionConfig
    defaultConnectionConfig fileSourcesC3 inlineSourcesC3 "a"
    (.obj [("user", .str "inlineuser")]) _ rfl rfl

/-- C2 counterexample: a query whose extraction yields a failing reference
can still be denied with a different (multi-statement) reason, because the
statement-type validation runs before the reference loop: the denial does
not carry the failing reference's reason. -/
theorem earlier_denial_preempts_reference_reason :
    extractTableRefs "SELECT 1; SELECT 2 FROM secret_users" =
      [{ database := none, table := "secret_users" }]
    ∧ (validateTableAccess "secret_users" examplePolicy
        (effectiveDatabase { database := none, table := "secret_users" } none
          exampleConfig.connection.database)).valid = false
    ∧ mysqlQuery "SELECT 1; SELECT 2 FROM secret_users" none exampleConfig =
        .denied "Permission denied: Multi-statement queries are not allowed"
    ∧ ("Permission denied: Multi-statement queries are not allowed" : String) ≠
        "Permission denied: Access to table \x27secret_users\x27 is not allowed" := by
  refine ⟨by decide, by decide, by decide, by decide⟩

/-- C2 (amended): for every query that passes statement-type validation and
whose extraction yields at least one reference failing its
database/table-pattern check, `mysql_query` returns a permission denial
carrying the reason of the first failing reference in extraction order, and
the query is never forwarded to the database executor. -/
theorem query_denied_on_first_failing_reference (sql : String)
    (database : Option String) (config : SourceConfig)
    (hv : (validateSqlType sql config.permissions).valid = true)
    (ref : TableRef) (hmem : ref ∈ extractTableRefs sql)
    (hfail : (validateTableAccess ref.table config.permissions
      (effectiveDatabase ref database config.connection.database)).valid = false) :
    ∃ l₁ firstRef l₂,
      extractTableRefs sql = l₁ ++ firstRef :: l₂
      ∧ (∀ r ∈ l₁, (validateTableAccess r.table config.permissions
          (effectiveDatabase r database config.connection.database)).valid = true)
      ∧ (validateTableAccess firstRef.table config.permissions
          (effectiveDatabase firstRef database config.connection.database)).valid = false
      ∧ mysqlQuery sql database config =
          .denied ("Permission denied: " ++
            ((validateTableAccess firstRef.table config.permissions
              (effectiveDatabase firstRef database
                config.connection.database)).error.getD "undefined"))
      ∧ ∀ s, mysqlQuery sql database config ≠ QueryOutcome.executed s := by
  obtain ⟨b, hb⟩ := find?_isSome_of_mem
    (fun r => !(validateTableAccess r.table config.permissions
      (effectiveDatabase r database config.connection.database)).valid)
    (extractTableRefs sql) ref hmem (by simp [hfail])
  obtain ⟨hpb, l₁, l₂, heq, hall⟩ := find?_some_split _ _ b hb
  have hbfail : (validateTableAccess b.table config.permissions
      (effectiveDatabase b database config.connection.database)).valid = false := by
    simpa using hpb
  have hdenied : mysqlQuery sql database config =
      .denied ("Permission denied: " ++
        ((validateTableAccess b.table config.permissions
          (effectiveDatabase b database config.connection.database)).error.getD
            "undefined")) := by
    unfold mysqlQuery firstFailingRef
    simp only [hv, Bool.not_true, Bool.false_eq_true, if_false]
    rw [hb]
  refine ⟨l₁, b, l₂, heq, ?_, hbfail, hdenied, ?_⟩
  · intro r hr
    have := hall r hr
    simpa using this
  · intro s hcontra
    rw [hdenied] at hcontra
    cases hcontra

/-- Witness for C2's amended theorem: a permitted SELECT against a
non-matching table is denied with that table's reason and not executed. -/
theorem query_denied_on_first_failing_reference_witness :
    ∃ l₁ firstRef l₂,
      extractTableRefs "SELECT * FROM secret_users" = l₁ ++ firstRef :: l₂
      ∧ (∀ r ∈ l₁, (validateTableAccess r.table exampleConfig.permissions
          (effectiveDatabase r none exampleConfig.connection.database)).valid = true)
      ∧ (validateTableAccess firstRef.table exampleConfig.permissions
          (effectiveDatabase firstRef none exampleConfig.connection.database)).valid = false
      ∧ mysqlQuery "SELECT * FROM secret_users" none exampleConfig =
          .denied ("Permission denied: " ++
            ((validateTableAccess firstRef.table exampleConfig.permissions
              (effectiveDatabase firstRef none
                exampleConfig.connection.database)).error.getD "undefined"))
      ∧ ∀ s, mysqlQuery "SELECT * FROM secret_users" none exampleConfig ≠
          QueryOutcome.executed s :=
  query_denied_on_first_failing_reference "SELECT * FROM secret_users" none
    exampleConfig (by decide) { database := none, table := "secret_users" }
    (by decide) (by decide)

/-- C4 counterexample: with the startup database self-test skipped
(`SKIP_DB_TEST=true`), the process starts serving even though the resolved
default source name (`b`, from an explicit override) names no configured
source — startup does not fail unconditionally. -/
theorem skipped_self_test_serves_with_unknown_default :
    mainStartup true false [("a", exampleConfig)] "b" (fun _ => true) = .serving
    ∧ resolveDefaultSourceName (some "b") none [("a", exampleConfig)] = some "b"
    ∧ objGet [("a", exampleConfig)] "b" = (none : Option SourceConfig) :=
  ⟨rfl, rfl, rfl⟩

/-- C4 (amended): when the startup connection self-test is enabled and
tests the default source (the default behaviour: `SKIP_DB_TEST` and
`TEST_ALL_SOURCES` unset), a resolved default source name that names no
configured source makes startup fail before serving, with the
unknown-source error enumerating the actual configured source names. -/
theorem unknown_default_source_fails_startup
    (sourceConfigs : List (String × SourceConfig))
    (envDefault fileDefault : Option String) (connectOk : String → Bool)
    (d : String)
    (hres : resolveDefaultSourceName envDefault fileDefault sourceConfigs = some d)
    (hmiss : objGet sourceConfigs d = none) :
    mainStartup false false sourceConfigs d connectOk =
      .exited ("Unknown source \x27" ++ (d ++ ("\x27. Available sources: " ++
        String.intercalate ", " (sourceConfigs.map Prod.fst)))) := by
  have hname : (if (trimString d).isEmpty then d else d) = d := by
    by_cases h : (trimString d).isEmpty <;> simp [h]
  unfold mainStartup
  simp only [Bool.false_eq_true, if_false]
  unfold List.findSome? testSourceConnection getSourceConfig
  simp only [hname, hmiss]

/-- Witness for C4's amended theorem at a registry with the single source
`a` and the unknown default `b`. -/
theorem unknown_default_source_fails_startup_witness :
    mainStartup false false [("a", exampleConfig)] "b" (fun _ => true) =
      .exited ("Unknown source \x27" ++ ("b" ++ ("\x27. Available sources: " ++
        String.intercalate ", " ([("a", exampleConfig)].map Prod.fst)))) :=
  unknown_default_source_fails_startup [("a", exampleConfig)] (some "b") none
    (fun _ => true) "b" rfl rfl

end MysqlMcp
